import Mathlib

/-!
Verification of the Nobitex-Python schema module.

This file gives a shallow embedding of the two pydantic validation pipelines
of the repository:

* `src/nobitex/schema/ohcl_schema.py`  — class `OHCLEntry` (production candle
  schema), its `validate_high_low` model validator (registered with
  `mode="before"`), its unregistered classmethod `parse_list`, and the
  module-level adapter `all_ohlc_T = TypeAdapter(Any)`;
* `src/nobitex/schema/trade_schema.py` — class `TradeEntry` with a
  `Literal['buy','sell']` field and a `mode='before'` field validator
  `validate_timestamp`, class `NubitexTrades`, and
  `all_trades_T = TypeAdapter(Dict[str, NubitexTrades])`;
* `src/tests/test_schema/test_ohcl.py`  — the test suite's own candle class
  `OHLCEntry` (spelled OHLC there), whose `parse_list` IS registered as a
  `mode="before"` model validator and which has no high/low validator.

Raw inputs are modelled by the JSON-like `Value` type.  Python `decimal.Decimal`
is modelled by `PyDecimal` (sign, coefficient digit string, exponent), with the
literal parser and the `__str__` printer translated from CPython's
`_pydecimal`.  Pydantic's lax field coercions are translated per field type.

Pydantic 2 semantics used throughout (verified against pydantic 2.10):
a `@model_validator(mode="before")` function whose single parameter is not
named `cls` is treated as a *free* validator (`FreeModelBeforeValidatorWithoutInfo`)
and is called with the raw input that was passed to `validate_python`, before
the model's own dict check and field coercion; exceptions other than
`ValueError`/`AssertionError` raised inside a validator propagate to the caller
unwrapped (they do not become `ValidationError`s).
-/

/-- A structured Python `datetime.datetime` value: calendar fields plus an
optional fixed UTC offset in minutes (`tzinfo` granularity used by the API). -/
structure PyDatetime where
  year : Nat
  month : Nat
  day : Nat
  hour : Nat
  minute : Nat
  second : Nat
  microsecond : Nat
  tzOffsetMinutes : Option Int
deriving DecidableEq, Repr

/-- Python `decimal.Decimal`, as stored by CPython `_pydecimal`: a sign, the
coefficient as a digit string (`_int`, most significant first, no leading zero
except a lone `0`), and the exponent `_exp`. -/
structure PyDecimal where
  neg : Bool
  digits : List (Fin 10)
  exp : Int
deriving DecidableEq, Repr

/-- A raw, already-deserialized input value: the nested combination of maps,
sequences, strings, numbers, booleans and null that the schema layer receives
(§6 of the spec), plus `Decimal` and `datetime` objects, which the repository
itself injects (`parse_list` builds a `Decimal("0")`; callers may pass
`datetime` timestamps).  Python dicts are modelled as association lists with
distinct keys (JSON object keys are unique); lookup takes the first match. -/
inductive Value where
  | vNone
  | vBool (b : Bool)
  | vInt (n : Int)
  | vStr (s : String)
  | vDecimal (d : PyDecimal)
  | vDatetime (dt : PyDatetime)
  | vList (xs : List Value)
  | vDict (kvs : List (String × Value))

/-- One step of a pydantic error location (`loc` entry): a field name, a
sequence index, or a mapping key. -/
inductive Loc where
  | field (name : String)
  | index (i : Nat)
  | key (k : String)

/-- The kind of a single pydantic validation error, mirroring pydantic-core
error types exercised by this repository. -/
inductive ErrKind where
  | missing
  | strType
  | intType
  | intParsing
  | decimalType
  | decimalParsing
  | literalError (input : Value) (expected : List String)
  | modelType
  | listType
  | dictType
  | valueError (msg : String)

/-- A single entry of a pydantic `ValidationError`: its location path and its
error kind. -/
structure VErr where
  loc : List Loc
  kind : ErrKind

/-- Outcome of running a pydantic validation that may also crash: either a
`ValidationError` (a list of per-field errors), an uncaught `AttributeError`
(pydantic only converts `ValueError`/`AssertionError` into validation errors),
or an uncaught `TypeError`. -/
inductive PyError where
  | validationError (errs : List VErr)
  | attributeError (attr : String)
  | typeError

/- ### Digits, decimal literals, and Python `Decimal` -/

/-- The ASCII character of a decimal digit. -/
def digitChar (d : Fin 10) : Char := Char.ofNat (48 + d.val)

/-- Render a digit string as characters. -/
def digitsChars : List (Fin 10) → List Char
  | [] => []
  | d :: t => digitChar d :: digitsChars t

/-- Numeric value of a digit string (most significant digit first). -/
def digitsNat (l : List (Fin 10)) : Nat := l.foldl (fun a d => 10 * a + d.val) 0

/-- Decode one ASCII digit character. -/
def charDigit? (c : Char) : Option (Fin 10) :=
  if h : 48 ≤ c.toNat ∧ c.toNat < 58 then some ⟨c.toNat - 48, by omega⟩ else none

/-- Decode a character list that must consist only of digits. -/
def digitsOf? : List Char → Option (List (Fin 10))
  | [] => some []
  | c :: cs =>
    match charDigit? c, digitsOf? cs with
    | some d, some ds => some (d :: ds)
    | _, _ => none

/-- Split a character list at the first `.` (CPython's decimal literal regex
allows at most one point; a second point makes the fractional digits invalid). -/
def splitDot : List Char → List Char × Option (List Char)
  | [] => ([], none)
  | c :: rest =>
    if c = '.' then ([], some rest)
    else
      let p := splitDot rest
      (c :: p.1, p.2)

/-- Strip leading zeros from a coefficient, keeping a lone zero, exactly as
CPython's `str(int(intpart + fracpart))` does when building `Decimal._int`. -/
def stripZeros (l : List (Fin 10)) : List (Fin 10) :=
  match l.dropWhile (· = (0 : Fin 10)) with
  | [] => [0]
  | r => r

/-- Build the `Decimal` stored for a literal with integer digits `ip` and
fractional digits `fp`: coefficient `str(int(ip ++ fp))`, exponent `-len(fp)`
(CPython `Decimal.__new__`). -/
def mkDec (neg : Bool) (ip fp : List (Fin 10)) : PyDecimal :=
  ⟨neg, stripZeros (ip ++ fp), -(fp.length : Int)⟩

/-- Parse a plain decimal literal, translated from the literal branch of
CPython `Decimal.__new__`: optional sign, optional integer digits, optional
point followed by optional fractional digits, at least one digit overall.
The exponent (`E`), `NaN`/`Infinity`, underscore and surrounding-whitespace
branches of the grammar are not exercised by this repository and are omitted;
strings they would accept are reported as unparsable here. -/
def pyDecimalOfChars (cs : List Char) : Option PyDecimal :=
  let sb : Bool × List Char :=
    match cs with
    | [] => (false, [])
    | c :: rest =>
      if c = '-' then (true, rest)
      else if c = '+' then (false, rest)
      else (false, c :: rest)
  let p := splitDot sb.2
  match p.2 with
  | none =>
    if p.1.isEmpty then none
    else (digitsOf? p.1).map fun ip => mkDec sb.1 ip []
  | some fcs =>
    if p.1.isEmpty && fcs.isEmpty then none
    else
      match digitsOf? p.1, digitsOf? fcs with
      | some ip, some fp => some (mkDec sb.1 ip fp)
      | _, _ => none

/-- Parse a decimal literal string. -/
def pyDecimalOfString (s : String) : Option PyDecimal :=
  pyDecimalOfChars s.data

/-- Digit characters of a natural number, via `toString`. -/
def natChars (n : Nat) : List Char := (toString n).data

/-- CPython's `'%+d'` rendering of the exponent of a `Decimal` in scientific
notation. -/
def expChars (e : Int) : List Char :=
  if 0 ≤ e then '+' :: natChars e.toNat else '-' :: natChars (-e).toNat

/-- `Decimal.__str__`, translated from CPython `_pydecimal` (non-special,
non-engineering case): plain positional notation when `_exp <= 0` and the
adjusted exponent is at least `-6`, scientific notation with the point after
the first digit otherwise. -/
def pyDecimalStrCharsCore (dneg : Bool) (ddigits : List (Fin 10)) (dexp : Int) :
    List Char :=
  let sign : List Char := if dneg then ['-'] else []
  let n : Nat := ddigits.length
  let left : Int := dexp + n
  if dexp ≤ 0 ∧ -6 < left then
    if left ≤ 0 then
      sign ++ '0' :: '.' :: (List.replicate (-left).toNat '0' ++ digitsChars ddigits)
    else if (n : Int) ≤ left then
      sign ++ digitsChars ddigits ++ List.replicate (left - (n : Int)).toNat '0'
    else
      sign ++ digitsChars (ddigits.take left.toNat) ++
        '.' :: digitsChars (ddigits.drop left.toNat)
  else
    let body : List Char :=
      if n ≤ 1 then digitsChars ddigits
      else digitsChars (ddigits.take 1) ++ '.' :: digitsChars (ddigits.drop 1)
    sign ++ body ++ 'E' :: expChars (left - 1)

/-- Character form of `Decimal.__str__`. -/
def pyDecimalStrChars (d : PyDecimal) : List Char :=
  pyDecimalStrCharsCore d.neg d.digits d.exp

/-- `str(Decimal)`, the form pydantic re-serializes `Decimal` fields to. -/
def pyDecimalStr (d : PyDecimal) : String := ⟨pyDecimalStrChars d⟩

/-- Exact rational value of a `Decimal`: `±coefficient · 10^exp`. -/
def PyDecimal.val (d : PyDecimal) : ℚ :=
  (if d.neg then -1 else 1) * (digitsNat d.digits : ℚ) * (10 : ℚ) ^ d.exp

/-- The `Decimal` of a Python int (pydantic coerces `int` fields exactly). -/
def decimalOfInt (n : Int) : PyDecimal :=
  ⟨n < 0, (Nat.toDigits 10 n.natAbs).filterMap charDigit?, 0⟩

/- ### Python string conversion and `datetime.isoformat` -/

/-- Zero-padded decimal rendering (`'%0*d'`). -/
def zpad (w : Nat) (n : Nat) : String :=
  ⟨List.replicate (w - (toString n).length) '0' ++ (toString n).data⟩

/-- A single-quote string, written without an apostrophe literal. -/
def pyQuote : String := ⟨[Char.ofNat 39]⟩

/-- `datetime.isoformat` with an arbitrary separator, translated from CPython:
date, separator, `HH:MM:SS`, fractional seconds only when the microsecond
field is nonzero, and a `+HH:MM` / `-HH:MM` UTC-offset suffix when `tzinfo`
is present (the repository's offsets are whole minutes). -/
def PyDatetime.isoformatSep (dt : PyDatetime) (sep : Char) : String :=
  zpad 4 dt.year ++ "-" ++ zpad 2 dt.month ++ "-" ++ zpad 2 dt.day ++
  (⟨[sep]⟩ : String) ++
  zpad 2 dt.hour ++ ":" ++ zpad 2 dt.minute ++ ":" ++ zpad 2 dt.second ++
  (if dt.microsecond = 0 then "" else "." ++ zpad 6 dt.microsecond) ++
  (match dt.tzOffsetMinutes with
   | none => ""
   | some off =>
     (if off < 0 then "-" else "+") ++
       zpad 2 (off.natAbs / 60) ++ ":" ++ zpad 2 (off.natAbs % 60))

/-- `datetime.isoformat()` (separator `T`). -/
def PyDatetime.isoformat (dt : PyDatetime) : String := dt.isoformatSep 'T'

mutual
/-- Python `repr` of a raw value, used by `str` on containers.  Faithful for
the shapes the schemas exchange; simplifications that no claim depends on:
string `repr` always uses single quotes and does not escape quotes,
backslashes or control characters, and an aware `datetime`'s `tzinfo`
argument is not rendered. -/
def pyRepr : Value → String
  | .vNone => "None"
  | .vBool b => cond b "True" "False"
  | .vInt n => toString n
  | .vStr s => pyQuote ++ s ++ pyQuote
  | .vDecimal d => "Decimal(" ++ pyQuote ++ pyDecimalStr d ++ pyQuote ++ ")"
  | .vDatetime dt =>
    "datetime.datetime(" ++ toString dt.year ++ ", " ++ toString dt.month ++ ", " ++
      toString dt.day ++ ", " ++ toString dt.hour ++ ", " ++ toString dt.minute ++
      (if dt.microsecond ≠ 0 then
        ", " ++ toString dt.second ++ ", " ++ toString dt.microsecond
       else if dt.second ≠ 0 then ", " ++ toString dt.second else "") ++ ")"
  | .vList xs => "[" ++ pyReprList xs ++ "]"
  | .vDict kvs => "\x7b" ++ pyReprDict kvs ++ "\x7d"

/-- Comma-separated `repr` of list elements. -/
def pyReprList : List Value → String
  | [] => ""
  | [x] => pyRepr x
  | x :: y :: xs => pyRepr x ++ ", " ++ pyReprList (y :: xs)

/-- Comma-separated `repr` of dict items. -/
def pyReprDict : List (String × Value) → String
  | [] => ""
  | [(k, v)] => pyQuote ++ k ++ pyQuote ++ ": " ++ pyRepr v
  | (k, v) :: p :: kvs => pyQuote ++ k ++ pyQuote ++ ": " ++ pyRepr v ++ ", " ++ pyReprDict (p :: kvs)
end

/-- Python `str()` of a raw value: identity on strings, `isoformat` with a
space separator on `datetime`, `True`/`False`/`None` keywords, exact decimal
rendering for `int` and `Decimal`, and `repr` for containers. -/
def pyStr : Value → String
  | .vStr s => s
  | .vDatetime dt => dt.isoformatSep ' '
  | .vNone => "None"
  | .vBool b => cond b "True" "False"
  | .vInt n => toString n
  | .vDecimal d => pyDecimalStr d
  | .vList xs => pyRepr (.vList xs)
  | .vDict kvs => pyRepr (.vDict kvs)

/- ### Pydantic lax field coercions -/

/-- Lax coercion into a `str` field: pydantic 2 accepts only actual strings
(ints, floats, etc. are not stringified). -/
def coerceStr : Value → Except ErrKind String
  | .vStr s => .ok s
  | _ => .error .strType

/-- Integer-literal parsing used by pydantic's lax str-to-int coercion:
optional sign followed by digits.  (pydantic also strips surrounding
whitespace and accepts `1.0`-style integral float strings; not exercised
here.) -/
def parseIntStr (s : String) : Option Int :=
  match s.data with
  | '-' :: rest =>
    if rest.isEmpty then none
    else (digitsOf? rest).map fun ds => -(digitsNat ds : Int)
  | '+' :: rest =>
    if rest.isEmpty then none
    else (digitsOf? rest).map fun ds => (digitsNat ds : Int)
  | cs =>
    if cs.isEmpty then none
    else (digitsOf? cs).map fun ds => (digitsNat ds : Int)

/-- Lax coercion into an `int` field: ints pass through, digit strings are
parsed; pydantic 2 rejects `bool` for `int` fields. -/
def coerceInt : Value → Except ErrKind Int
  | .vInt n => .ok n
  | .vStr s =>
    match parseIntStr s with
    | some n => .ok n
    | none => .error .intParsing
  | _ => .error .intType

/-- Lax coercion into a `Decimal` field: `Decimal` passes through, `int`
converts exactly, strings go through the `Decimal` literal parser. -/
def coerceDecimal : Value → Except ErrKind PyDecimal
  | .vDecimal d => .ok d
  | .vInt n => .ok (decimalOfInt n)
  | .vStr s =>
    match pyDecimalOfString s with
    | some d => .ok d
    | none => .error .decimalParsing
  | _ => .error .decimalType

/-- Whether a raw value is exactly a given string literal. -/
def Value.isStrEq : Value → String → Bool
  | .vStr s, t => s = t
  | _, _ => false

/-- Validation of the `Literal['buy', 'sell']` field `TradeEntry.type`:
succeeds exactly on those two case-sensitive tokens; any other input yields a
literal error carrying the offending input and the accepted tokens. -/
def coerceTradeType (v : Value) : Except ErrKind String :=
  if v.isStrEq "buy" then .ok "buy"
  else if v.isStrEq "sell" then .ok "sell"
  else .error (.literalError v ["buy", "sell"])

/-- `TradeEntry.validate_timestamp` (`@field_validator('timestamp',
mode='before')`): a `datetime` becomes its `isoformat`, anything else goes
through `str()`; the result is always a string, so the subsequent `str` field
check always succeeds — no format validation is performed. -/
def validate_timestamp : Value → String
  | .vDatetime dt => dt.isoformat
  | v => pyStr v

/- ### Model field validation -/

/-- First-match key lookup in an association-list dict. -/
def lookup (kvs : List (String × Value)) (k : String) : Option Value :=
  (kvs.find? fun p => p.1 == k).map (·.2)

/-- The errors of a failed validation, `[]` for a success. -/
def errsOf {α : Type} : Except (List VErr) α → List VErr
  | .ok _ => []
  | .error e => e

/-- Validate a required model field: a missing key is a `missing` error, and a
coercion error is tagged with the field name, as in pydantic error locations. -/
def reqField {α : Type} (kvs : List (String × Value)) (name : String)
    (coe : Value → Except ErrKind α) : Except (List VErr) α :=
  match lookup kvs name with
  | none => .error [⟨[.field name], .missing⟩]
  | some v =>
    match coe v with
    | .ok a => .ok a
    | .error k => .error [⟨[.field name], k⟩]

/- ### TradeEntry -/

/-- A validated `TradeEntry`. -/
structure TradeEntryT where
  market : String
  price : PyDecimal
  amount : PyDecimal
  total : PyDecimal
  type : String
  timestamp : String
deriving Repr

/-- `TradeEntry.model_validate`: the input must be a keyed record; the six
declared fields are looked up and coerced (`market` str, `price`/`amount`/
`total` Decimal, `type` the two-token literal, `timestamp` through
`validate_timestamp` and then the always-satisfied str check); unknown keys
are ignored (pydantic's default `extra='ignore'`); all field errors are
collected, in field declaration order. -/
def TradeEntry.model_validate (v : Value) : Except (List VErr) TradeEntryT :=
  match v with
  | .vDict kvs =>
    let m := reqField kvs "market" coerceStr
    let p := reqField kvs "price" coerceDecimal
    let a := reqField kvs "amount" coerceDecimal
    let t := reqField kvs "total" coerceDecimal
    let ty := reqField kvs "type" coerceTradeType
    let ts : Except (List VErr) String :=
      match lookup kvs "timestamp" with
      | none => .error [⟨[.field "timestamp"], .missing⟩]
      | some w => .ok (validate_timestamp w)
    match m, p, a, t, ty, ts with
    | .ok m, .ok p, .ok a, .ok t, .ok ty, .ok ts => .ok ⟨m, p, a, t, ty, ts⟩
    | _, _, _, _, _, _ =>
      .error (errsOf m ++ errsOf p ++ errsOf a ++ errsOf t ++ errsOf ty ++ errsOf ts)
  | _ => .error [⟨[], .modelType⟩]

/- ### Candle field validation (shared by `OHCLEntry` and the test suite's `OHLCEntry`, whose declared fields are identical) -/

/-- A validated candle entry. -/
structure OHCLEntryT where
  timestamp : Int
  «open» : PyDecimal
  high : PyDecimal
  low : PyDecimal
  close : PyDecimal
  volume : PyDecimal
deriving Repr

/-- Pydantic model-fields validation for the candle classes: the (possibly
pre-processed) input must be a keyed record; `timestamp` coerces to int, the
five quantity fields to `Decimal`; unknown keys are ignored; all field errors
are collected in declaration order; a non-record input is a single
`model_type` error (`Input should be a valid dictionary or instance of ...`). -/
def candleFields (v : Value) : Except (List VErr) OHCLEntryT :=
  match v with
  | .vDict kvs =>
    let t := reqField kvs "timestamp" coerceInt
    let o := reqField kvs "open" coerceDecimal
    let h := reqField kvs "high" coerceDecimal
    let l := reqField kvs "low" coerceDecimal
    let c := reqField kvs "close" coerceDecimal
    let vo := reqField kvs "volume" coerceDecimal
    match t, o, h, l, c, vo with
    | .ok t, .ok o, .ok h, .ok l, .ok c, .ok vo => .ok ⟨t, o, h, l, c, vo⟩
    | _, _, _, _, _, _ =>
      .error (errsOf t ++ errsOf o ++ errsOf h ++ errsOf l ++ errsOf c ++ errsOf vo)
  | _ => .error [⟨[], .modelType⟩]

/- ### The production `OHCLEntry` pipeline -/

/-- Python attribute lookup for the names `high`/`open`/`low`/`close` on a raw
input value.  The runtime types a raw value can have — `NoneType`, `bool`,
`int`, `str`, `decimal.Decimal`, `datetime.datetime`, `list`, `dict` — define
no attribute with any of these names (dict KEYS are not attributes), so the
lookup fails uniformly and CPython raises `AttributeError`. -/
def pyGetattr : Value → String → Option Value
  | _, _ => none

/-- Evaluate `v.<name>`: an `AttributeError` when the attribute is absent. -/
def pyAttr (v : Value) (name : String) : Except PyError Value :=
  match pyGetattr v name with
  | some x => .ok x
  | none => .error (.attributeError name)

/-- The numeric (rational) content of a raw value, for Python `<`/`>`:
`int` and `Decimal` are comparable numbers; `bool` also is in Python but never
reaches a comparison in this code. -/
def Value.asNum? : Value → Option ℚ
  | .vInt n => some (n : ℚ)
  | .vDecimal d => some d.val
  | _ => none

/-- Python `a < b` for the value shapes that can appear here: numeric pairs
compare by value, string pairs lexicographically; any other pair raises
`TypeError`. -/
def pyLt (a b : Value) : Except PyError Bool :=
  match a.asNum?, b.asNum? with
  | some x, some y => .ok (decide (x < y))
  | _, _ =>
    match a, b with
    | .vStr s, .vStr t => .ok (decide (s < t))
    | _, _ => .error .typeError

/-- Python `max(a, b)`: `b` when `b > a`, else `a`. -/
def pyMax (a b : Value) : Except PyError Value := do
  let gt ← pyLt a b
  pure (if gt then b else a)

/-- Python `min(a, b)`: `b` when `b < a`, else `a`. -/
def pyMin (a b : Value) : Except PyError Value := do
  let lt ← pyLt b a
  pure (if lt then b else a)

/-- `OHCLEntry.validate_high_low`, registered `@model_validator(mode="before")`
with the single parameter `self`: pydantic treats it as a free before-validator
and calls it with the RAW input value.  The body first evaluates `self.high`
(then `self.open`, `self.close`, `max`, `<`, and in the second check
`self.low`, `min`, `>`), raising the `ValueError`s shown on an invariant
violation.  Since no raw input value has these attributes (`pyGetattr`), the
very first attribute access raises `AttributeError("high")` for every raw
input, and the comparisons are unreachable. -/
def validate_high_low (v : Value) : Except PyError Value := do
  let high ← pyAttr v "high"
  let o ← pyAttr v "open"
  let c ← pyAttr v "close"
  let mx ← pyMax o c
  let hLtMax ← pyLt high mx
  if hLtMax then
    .error (.validationError [⟨[], .valueError "High must be >= max(open, close)"⟩])
  else
    let lo ← pyAttr v "low"
    let mn ← pyMin o c
    let minLtLow ← pyLt mn lo
    if minLtLow then
      .error (.validationError [⟨[], .valueError "Low must be <= min(open, close)"⟩])
    else
      pure v

/-- `OHCLEntry.model_validate`: the only validator registered on the
production class is `validate_high_low` (the classmethod `parse_list` carries
no `@model_validator` decorator and is NOT part of validation), so validation
is the before-hook followed by model-fields validation; a `ValidationError`
from the fields is raised to the caller, and any other exception from the
before-hook propagates unwrapped. -/
def OHCLEntry.model_validate (v : Value) : Except PyError OHCLEntryT :=
  match validate_high_low v with
  | .error e => .error e
  | .ok w =>
    match candleFields w with
    | .ok e => .ok e
    | .error errs => .error (.validationError errs)

/-- `OHCLEntry.parse_list` (production, an ordinary classmethod): reshape a
sequence of length at least 6 (positions 0..5, extra elements ignored) or of
length exactly 5 (volume defaulting to `Decimal("0")`) into a keyed record;
any other input is returned unchanged. -/
def OHCLEntry.parse_list : Value → Value
  | .vList (t :: o :: h :: l :: c :: vo :: _) =>
    .vDict [("timestamp", t), ("open", o), ("high", h), ("low", l),
            ("close", c), ("volume", vo)]
  | .vList [t, o, h, l, c] =>
    .vDict [("timestamp", t), ("open", o), ("high", h), ("low", l),
            ("close", c), ("volume", .vDecimal ⟨false, [0], 0⟩)]
  | v => v

/- ### The test suite's `OHLCEntry` pipeline (src/tests/test_schema/test_ohcl.py) -/

/-- `OHLCEntry.parse_list` (test suite): same reshaping, registered as a real
`mode="before"` classmethod model validator; the 5-element default volume is
the string `"0"`. -/
def OHLCEntry.parse_list : Value → Value
  | .vList (t :: o :: h :: l :: c :: vo :: _) =>
    .vDict [("timestamp", t), ("open", o), ("high", h), ("low", l),
            ("close", c), ("volume", vo)]
  | .vList [t, o, h, l, c] =>
    .vDict [("timestamp", t), ("open", o), ("high", h), ("low", l),
            ("close", c), ("volume", .vStr "0")]
  | v => v

/-- `OHLCEntry.model_validate` (test suite): `parse_list` runs as the (only)
before-validator, then the model fields are validated; there is no high/low
cross-field check on this class. -/
def OHLCEntry.model_validate (v : Value) : Except (List VErr) OHCLEntryT :=
  candleFields (OHLCEntry.parse_list v)

/- ### Collections and multi-symbol adapters -/

/-- A validated `NubitexTrades` batch. -/
structure NubitexTradesT where
  trades : List TradeEntryT
  status : String
deriving Repr

/-- Prepend a location step to every error of a failed sub-validation. -/
def tagErrs (l : Loc) (errs : List VErr) : List VErr :=
  errs.map fun e => ⟨l :: e.loc, e.kind⟩

/-- Validate the elements of `trades`, collecting the errors of every failing
index (pydantic validates all elements and reports each with its index). -/
def validateTradeItems : Nat → List Value → Except (List VErr) (List TradeEntryT)
  | _, [] => .ok []
  | i, x :: rest =>
    let hd : Except (List VErr) TradeEntryT :=
      match TradeEntry.model_validate x with
      | .ok e => .ok e
      | .error errs => .error (tagErrs (.index i) errs)
    let tl := validateTradeItems (i + 1) rest
    match hd, tl with
    | .ok e, .ok es => .ok (e :: es)
    | _, _ => .error (errsOf hd ++ errsOf tl)

/-- `NubitexTrades.model_validate`: a keyed record with a `trades` list (each
element a `TradeEntry`) and a pass-through `status` string. -/
def NubitexTrades.model_validate (v : Value) : Except (List VErr) NubitexTradesT :=
  match v with
  | .vDict kvs =>
    let tr : Except (List VErr) (List TradeEntryT) :=
      match lookup kvs "trades" with
      | none => .error [⟨[.field "trades"], .missing⟩]
      | some (.vList xs) =>
        match validateTradeItems 0 xs with
        | .ok es => .ok es
        | .error errs => .error (tagErrs (.field "trades") errs)
      | some _ => .error [⟨[.field "trades"], .listType⟩]
    let st := reqField kvs "status" coerceStr
    match tr, st with
    | .ok tr, .ok st => .ok ⟨tr, st⟩
    | _, _ => .error (errsOf tr ++ errsOf st)
  | _ => .error [⟨[], .modelType⟩]

/-- Validate the values of a symbol-to-batch map, keeping every key and
tagging each failing symbol's errors with its key. -/
def validateTradeMapItems :
    List (String × Value) → Except (List VErr) (List (String × NubitexTradesT))
  | [] => .ok []
  | (k, v) :: rest =>
    let hd : Except (List VErr) NubitexTradesT :=
      match NubitexTrades.model_validate v with
      | .ok b => .ok b
      | .error errs => .error (tagErrs (.key k) errs)
    let tl := validateTradeMapItems rest
    match hd, tl with
    | .ok b, .ok bs => .ok ((k, b) :: bs)
    | _, _ => .error (errsOf hd ++ errsOf tl)

/-- `all_trades_T = TypeAdapter(Dict[str, NubitexTrades])`: the input must be
a map; every value is validated as a `NubitexTrades`, independently, all
errors collected under their symbol key. -/
def all_trades_T_validate (v : Value) :
    Except (List VErr) (List (String × NubitexTradesT)) :=
  match v with
  | .vDict kvs => validateTradeMapItems kvs
  | _ => .error [⟨[], .dictType⟩]

/-- `all_ohlc_T = TypeAdapter(Any)` (production OHCL module): the `Any` schema
performs no validation at all — every input is accepted and returned
unchanged. -/
def all_ohlc_T_validate (v : Value) : Except (List VErr) Value := .ok v

/- ### Canonical plain decimal literals (for the round-trip property) -/

/-- A plain decimal literal: sign, integer-part digits, fractional-part digits
(`fp = []` meaning the literal has no point). -/
structure PlainLit where
  neg : Bool
  ip : List (Fin 10)
  fp : List (Fin 10)
deriving DecidableEq

/-- The characters of the literal. -/
def PlainLit.renderChars (L : PlainLit) : List Char :=
  (if L.neg then ['-'] else []) ++ digitsChars L.ip ++
    (if L.fp.isEmpty then [] else '.' :: digitsChars L.fp)

/-- The literal as a string. -/
def PlainLit.render (L : PlainLit) : String := ⟨L.renderChars⟩

/-- The exact rational value denoted by the literal. -/
def PlainLit.val (L : PlainLit) : ℚ :=
  (if L.neg then -1 else 1) * (digitsNat (L.ip ++ L.fp) : ℚ) / (10 : ℚ) ^ L.fp.length

/-- A literal is canonical when it is what `str(Decimal(...))` itself would
emit in positional notation: a nonempty integer part without a superfluous
leading zero, and — when the integer part is `0` — few enough leading
fractional zeros that Python does not switch to scientific notation (at most
five before a significant digit; at most six fractional digits when they are
all zero). -/
def PlainLit.Canonical (L : PlainLit) : Prop :=
  L.ip ≠ [] ∧
  (L.ip = [0] ∨ L.ip.head? ≠ some 0) ∧
  (L.ip = [0] →
    (L.fp.dropWhile (· = (0 : Fin 10)) ≠ [] ∧
      (L.fp.takeWhile (· = (0 : Fin 10))).length ≤ 5) ∨
    (L.fp.dropWhile (· = (0 : Fin 10)) = [] ∧ L.fp.length ≤ 6))

instance (L : PlainLit) : Decidable L.Canonical := by
  unfold PlainLit.Canonical; infer_instance

/- ### Lemmas: digits, parsing, printing -/

theorem charDigit_digitChar : ∀ d : Fin 10, charDigit? (digitChar d) = some d := by decide

theorem digitChar_ne_dot : ∀ d : Fin 10, digitChar d ≠ '.' := by decide

theorem digitChar_ne_dash : ∀ d : Fin 10, digitChar d ≠ '-' := by decide

theorem digitChar_ne_plus : ∀ d : Fin 10, digitChar d ≠ '+' := by decide

theorem digitsChars_append (a b : List (Fin 10)) :
    digitsChars (a ++ b) = digitsChars a ++ digitsChars b := by
  induction a with
  | nil => rfl
  | cons d t ih => simp [digitsChars, ih]

theorem digitsOf_digitsChars : ∀ l : List (Fin 10), digitsOf? (digitsChars l) = some l := by
  intro l
  induction l with
  | nil => rfl
  | cons d t ih => simp [digitsChars, digitsOf?, charDigit_digitChar d, ih]

theorem splitDot_digitsChars (l : List (Fin 10)) :
    splitDot (digitsChars l) = (digitsChars l, none) := by
  induction l with
  | nil => rfl
  | cons d t ih => simp [digitsChars, splitDot, digitChar_ne_dot d, ih]

theorem splitDot_digitsChars_dot (l : List (Fin 10)) (rest : List Char) :
    splitDot (digitsChars l ++ '.' :: rest) = (digitsChars l, some rest) := by
  induction l with
  | nil => simp [digitsChars, splitDot]
  | cons d t ih => simp [digitsChars, splitDot, digitChar_ne_dot d, ih]

theorem splitDot_cons_digits (d : Fin 10) (t : List (Fin 10)) :
    splitDot (digitChar d :: digitsChars t) = (digitChar d :: digitsChars t, none) := by
  rw [show digitChar d :: digitsChars t = digitsChars (d :: t) from rfl]
  exact splitDot_digitsChars _

theorem splitDot_cons_digits_dot (d : Fin 10) (t : List (Fin 10)) (rest : List Char) :
    splitDot (digitChar d :: (digitsChars t ++ '.' :: rest)) =
      (digitChar d :: digitsChars t, some rest) := by
  simp [splitDot, digitChar_ne_dot d, splitDot_digitsChars_dot t rest]

theorem digitsOf_cons_digits (d : Fin 10) (t : List (Fin 10)) :
    digitsOf? (digitChar d :: digitsChars t) = some (d :: t) := by
  rw [show digitChar d :: digitsChars t = digitsChars (d :: t) from rfl]
  exact digitsOf_digitsChars _

/-- Parsing a rendered plain literal recovers exactly the `Decimal` that
CPython's constructor stores for it. -/
theorem parse_renderChars (L : PlainLit) (hip : L.ip ≠ []) :
    pyDecimalOfChars L.renderChars = some (mkDec L.neg L.ip L.fp) := by
  obtain ⟨neg, ip, fp⟩ := L
  simp only at hip ⊢
  obtain ⟨d, t, rfl⟩ : ∃ d t, ip = d :: t := by
    cases h : ip with
    | nil => exact absurd h hip
    | cons d t => exact ⟨d, t, rfl⟩
  rcases fp with _ | ⟨f, fs⟩ <;> cases neg <;>
    simp [PlainLit.renderChars, pyDecimalOfChars, digitsChars,
      digitChar_ne_dash d, digitChar_ne_plus d, splitDot_cons_digits,
      splitDot_cons_digits_dot, digitsOf_cons_digits, mkDec]

theorem digitsNat_cons_zero (t : List (Fin 10)) :
    digitsNat ((0 : Fin 10) :: t) = digitsNat t := rfl

theorem digitsNat_dropZeros (l : List (Fin 10)) :
    digitsNat (l.dropWhile (· = (0 : Fin 10))) = digitsNat l := by
  induction l with
  | nil => rfl
  | cons d t ih =>
    by_cases h : d = (0 : Fin 10)
    · subst h
      rw [List.dropWhile_cons_of_pos (by simp), ih, digitsNat_cons_zero]
    · rw [List.dropWhile_cons_of_neg (by simpa using h)]

theorem digitsNat_stripZeros (l : List (Fin 10)) :
    digitsNat (stripZeros l) = digitsNat l := by
  unfold stripZeros
  cases hd : l.dropWhile (· = (0 : Fin 10)) with
  | nil =>
    have h := digitsNat_dropZeros l
    rw [hd] at h
    simpa [digitsNat] using h
  | cons a t =>
    have h := digitsNat_dropZeros l
    rw [hd] at h
    exact h

/-- The `Decimal` built for a literal denotes exactly the literal's value. -/
theorem val_mkDec (neg : Bool) (ip fp : List (Fin 10)) :
    (mkDec neg ip fp).val =
      (if neg then -1 else 1) * (digitsNat (ip ++ fp) : ℚ) / (10 : ℚ) ^ fp.length := by
  unfold mkDec PyDecimal.val
  rw [digitsNat_stripZeros, zpow_neg, zpow_natCast]
  ring

theorem digitsChars_replicate_zero (k : Nat) :
    digitsChars (List.replicate k (0 : Fin 10)) = List.replicate k '0' := by
  induction k with
  | zero => rfl
  | succ n ih => simp [List.replicate_succ, digitsChars, ih]; rfl

theorem stripZeros_cons_ne (d : Fin 10) (t : List (Fin 10)) (hd : d ≠ 0) :
    stripZeros (d :: t) = d :: t := by
  unfold stripZeros
  rw [List.dropWhile_cons_of_neg (by simpa using hd)]

theorem stripZeros_zero_cons (fp : List (Fin 10)) :
    stripZeros ((0 : Fin 10) :: fp) =
      match fp.dropWhile (· = (0 : Fin 10)) with
      | [] => [0]
      | r => r := by
  unfold stripZeros
  rw [List.dropWhile_cons_of_pos (by simp)]

theorem printer_case_int (neg : Bool) (d : Fin 10) (t : List (Fin 10)) :
    pyDecimalStrCharsCore neg (d :: t) 0 =
      (if neg then ['-'] else []) ++ digitsChars (d :: t) := by
  simp only [pyDecimalStrCharsCore, List.length_cons]
  have c1 : (0 : ℤ) ≤ 0 ∧ -6 < (0 : ℤ) + ((t.length + 1 : ℕ) : ℤ) := by omega
  have c2 : ¬((0 : ℤ) + ((t.length + 1 : ℕ) : ℤ) ≤ 0) := by omega
  have c3 : ((t.length + 1 : ℕ) : ℤ) ≤ (0 : ℤ) + ((t.length + 1 : ℕ) : ℤ) := by
    omega
  rw [if_pos c1, if_neg c2, if_pos c3]
  have h0 : ((0 : ℤ) + ((t.length + 1 : ℕ) : ℤ) - ((t.length + 1 : ℕ) : ℤ)).toNat = 0 := by
    omega
  rw [h0]
  simp

theorem printer_case_mixed (neg : Bool) (d : Fin 10) (t fp : List (Fin 10))
    (hfp : fp ≠ []) :
    pyDecimalStrCharsCore neg (d :: (t ++ fp)) (-(fp.length : Int)) =
      (if neg then ['-'] else []) ++ digitsChars (d :: t) ++ '.' :: digitsChars fp := by
  have hfl : 1 ≤ fp.length := by
    cases fp with
    | nil => exact absurd rfl hfp
    | cons f fr => simp
  simp only [pyDecimalStrCharsCore, List.length_cons, List.length_append]
  have c1 : -((fp.length : ℕ) : ℤ) ≤ 0 ∧
      -6 < -((fp.length : ℕ) : ℤ) + ((t.length + fp.length + 1 : ℕ) : ℤ) := by
    omega
  have c2 : ¬(-((fp.length : ℕ) : ℤ) + ((t.length + fp.length + 1 : ℕ) : ℤ) ≤ 0) := by
    omega
  have c3 : ¬(((t.length + fp.length + 1 : ℕ) : ℤ) ≤
      -((fp.length : ℕ) : ℤ) + ((t.length + fp.length + 1 : ℕ) : ℤ)) := by
    omega
  rw [if_pos c1, if_neg c2, if_neg c3]
  have h1 : (-((fp.length : ℕ) : ℤ) + ((t.length + fp.length + 1 : ℕ) : ℤ)).toNat
      = t.length + 1 := by omega
  rw [h1, List.take_succ_cons, List.drop_succ_cons, List.take_left, List.drop_left]

theorem printer_case_zero_frac (neg : Bool) (m : Nat) (h1 : 1 ≤ m) (h6 : m ≤ 6) :
    pyDecimalStrCharsCore neg [0] (-(m : Int)) =
      (if neg then ['-'] else []) ++ '0' :: '.' :: List.replicate m '0' := by
  simp only [pyDecimalStrCharsCore, List.length_cons, List.length_nil]
  have c1 : -((m : ℕ) : ℤ) ≤ 0 ∧ -6 < -((m : ℕ) : ℤ) + ((0 + 1 : ℕ) : ℤ) := by
    omega
  have c2 : -((m : ℕ) : ℤ) + ((0 + 1 : ℕ) : ℤ) ≤ 0 := by omega
  rw [if_pos c1, if_pos c2]
  have h0 : (-(-((m : ℕ) : ℤ) + ((0 + 1 : ℕ) : ℤ))).toNat = m - 1 := by omega
  rw [h0]
  have h2 : List.replicate (m - 1) '0' ++ digitsChars [0] = List.replicate m '0' := by
    rw [show digitsChars [0] = ['0'] from rfl, ← List.replicate_succ',
      show m - 1 + 1 = m by omega]
  rw [h2]

theorem printer_case_small (neg : Bool) (a : Fin 10) (r : List (Fin 10)) (k : Nat)
    (hk : k ≤ 5) :
    pyDecimalStrCharsCore neg (a :: r) (-((k + r.length + 1 : Nat) : Int)) =
      (if neg then ['-'] else []) ++
        '0' :: '.' :: (List.replicate k '0' ++ digitsChars (a :: r)) := by
  simp only [pyDecimalStrCharsCore, List.length_cons]
  have c1 : -((k + r.length + 1 : ℕ) : ℤ) ≤ 0 ∧
      -6 < -((k + r.length + 1 : ℕ) : ℤ) + ((r.length + 1 : ℕ) : ℤ) := by
    omega
  have c2 : -((k + r.length + 1 : ℕ) : ℤ) + ((r.length + 1 : ℕ) : ℤ) ≤ 0 := by
    omega
  rw [if_pos c1, if_pos c2]
  have h0 : (-(-((k + r.length + 1 : ℕ) : ℤ) + ((r.length + 1 : ℕ) : ℤ))).toNat = k := by
    omega
  rw [h0]

theorem dropWhile_head_ne (l : List (Fin 10)) (a : Fin 10) (t : List (Fin 10))
    (h : l.dropWhile (· = (0 : Fin 10)) = a :: t) : a ≠ 0 := by
  induction l with
  | nil => simp [List.dropWhile] at h
  | cons b l ih =>
    by_cases hb : b = (0 : Fin 10)
    · rw [List.dropWhile_cons_of_pos (by simpa using hb)] at h
      exact ih h
    · rw [List.dropWhile_cons_of_neg (by simpa using hb)] at h
      injection h with h1 _
      exact h1 ▸ hb

theorem digitsChars_all_zero (fp : List (Fin 10)) (hall : ∀ x ∈ fp, x = 0) :
    digitsChars fp = List.replicate fp.length '0' := by
  induction fp with
  | nil => rfl
  | cons f t ih =>
    have hf : f = 0 := hall f (by simp)
    subst hf
    rw [digitsChars, show digitChar 0 = '0' from rfl, List.length_cons,
      List.replicate_succ, ih fun x hx => hall x (by simp [hx])]

/-- Printing the `Decimal` stored for a canonical plain literal reproduces the
literal exactly. -/
theorem strChars_mkDec (L : PlainLit) (h : L.Canonical) :
    pyDecimalStrCharsCore (mkDec L.neg L.ip L.fp).neg (mkDec L.neg L.ip L.fp).digits
      (mkDec L.neg L.ip L.fp).exp = L.renderChars := by
  obtain ⟨neg, ip, fp⟩ := L
  obtain ⟨hip, hlead, hfp0⟩ := h
  simp only [mkDec] at *
  by_cases hip0 : ip = [0]
  · subst hip0
    have h01 : (([0] ++ fp : List (Fin 10))) = (0 : Fin 10) :: fp := by simp
    rcases hr : fp.dropWhile (· = (0 : Fin 10)) with _ | ⟨a, r⟩
    · -- the fractional part is all zeros
      have hall : ∀ x ∈ fp, x = 0 := by
        intro x hx
        simpa using List.dropWhile_eq_nil_iff.mp hr x hx
      have hsz : stripZeros ([0] ++ fp) = [0] := by
        rw [h01, stripZeros_zero_cons, hr]
      have h6 : fp.length ≤ 6 := by
        rcases hfp0 rfl with ⟨hne, -⟩ | ⟨-, h6⟩
        · exact absurd hr hne
        · exact h6
      rcases fp with _ | ⟨f, fr⟩
      · cases neg <;> rfl
      · rw [hsz, printer_case_zero_frac neg (f :: fr).length (by simp) h6,
          PlainLit.renderChars]
        rw [show (f :: fr).isEmpty = false from rfl,
          digitsChars_all_zero (f :: fr) hall,
          show digitsChars [0] = ['0'] from rfl]
        simp
    · -- a significant fractional digit exists
      have hk5 : (fp.takeWhile (· = (0 : Fin 10))).length ≤ 5 := by
        rcases hfp0 rfl with ⟨-, hk⟩ | ⟨hnil, -⟩
        · exact hk
        · rw [hr] at hnil
          simp at hnil
      have hdecomp : fp =
          List.replicate (fp.takeWhile (· = (0 : Fin 10))).length (0 : Fin 10) ++
            a :: r := by
        conv_lhs => rw [← List.takeWhile_append_dropWhile
          (p := (· = (0 : Fin 10))) (l := fp)]
        rw [hr]
        congr 1
        exact List.eq_replicate_of_mem fun b hb => by
          simpa using List.mem_takeWhile_imp hb
      have hsz : stripZeros ([0] ++ fp) = a :: r := by
        rw [h01, stripZeros_zero_cons, hr]
      have hlen : fp.length =
          (fp.takeWhile (· = (0 : Fin 10))).length + r.length + 1 := by
        conv_lhs => rw [hdecomp]
        simp [List.length_append, List.length_replicate]
        omega
      rw [hsz, show (-(fp.length : ℤ)) =
          -(((fp.takeWhile (· = (0 : Fin 10))).length + r.length + 1 : ℕ) : ℤ) by
            rw [hlen],
        printer_case_small neg a r _ hk5, PlainLit.renderChars]
      have hne : fp.isEmpty = false := by
        cases hfpe : fp with
        | nil => rw [hfpe] at hr; simp [List.dropWhile] at hr
        | cons f fr => rfl
      rw [hne]
      conv_rhs => rw [hdecomp]
      rw [digitsChars_append, digitsChars_replicate_zero,
        show digitsChars [0] = ['0'] from rfl]
      simp
  · -- nonzero integer part
    obtain ⟨d, t, rfl⟩ : ∃ d t, ip = d :: t := by
      cases hc : ip with
      | nil => exact absurd hc hip
      | cons d t => exact ⟨d, t, rfl⟩
    have hd0 : d ≠ 0 := by
      rcases hlead with h0 | hh
      · exact absurd h0 hip0
      · simpa using hh
    have hsz : stripZeros ((d :: t) ++ fp) = d :: (t ++ fp) := by
      rw [List.cons_append, stripZeros_cons_ne _ _ hd0]
    rw [hsz]
    rcases hfpe : fp with _ | ⟨f, fr⟩
    · rw [show (-((([] : List (Fin 10))).length : ℤ)) = (0 : ℤ) by simp,
        show t ++ ([] : List (Fin 10)) = t by simp, printer_case_int,
        PlainLit.renderChars]
      simp
    · rw [printer_case_mixed neg d t (f :: fr) (by simp), PlainLit.renderChars]
      simp

theorem pyDecimalStr_mkDec (L : PlainLit) (h : L.Canonical) :
    pyDecimalStr (mkDec L.neg L.ip L.fp) = L.render :=
  congrArg String.mk (strChars_mkDec L h)

theorem coerceDecimal_render (L : PlainLit) (hip : L.ip ≠ []) :
    coerceDecimal (.vStr L.render) = .ok (mkDec L.neg L.ip L.fp) := by
  have h : pyDecimalOfString L.render = some (mkDec L.neg L.ip L.fp) :=
    parse_renderChars L hip
  simp [coerceDecimal, h]

theorem val_mkDec_lit (L : PlainLit) : (mkDec L.neg L.ip L.fp).val = L.val := by
  rw [val_mkDec, PlainLit.val]

/- ### Concrete valid records used as evaluation points -/

/-- A valid trade record whose `price` value varies. -/
def tradeRecPrice (pv : Value) : Value :=
  .vDict [("market", .vStr "BTC-USDT"), ("price", pv), ("amount", .vStr "0.1"),
    ("total", .vStr "5000"), ("type", .vStr "buy"),
    ("timestamp", .vStr "2024-01-01T10:00:00+00:00")]

/-- A valid trade record whose `type` value varies. -/
def tradeRecType (tv : Value) : Value :=
  .vDict [("market", .vStr "BTC-USDT"), ("price", .vStr "50000"),
    ("amount", .vStr "0.1"), ("total", .vStr "5000"), ("type", tv),
    ("timestamp", .vStr "2024-01-01T10:00:00+00:00")]

/-- A valid trade record whose `timestamp` value varies. -/
def tradeRecTs (ts : Value) : Value :=
  .vDict [("market", .vStr "BTC-USDT"), ("price", .vStr "50000"),
    ("amount", .vStr "0.1"), ("total", .vStr "5000"), ("type", .vStr "buy"),
    ("timestamp", ts)]

/-- The entry validated from `tradeRecPrice` for a given stored price. -/
def tradeEntPrice (dd : PyDecimal) : TradeEntryT :=
  ⟨"BTC-USDT", dd, ⟨false, [1], -1⟩, ⟨false, [5, 0, 0, 0], 0⟩, "buy",
    "2024-01-01T10:00:00+00:00"⟩

/-- The entry validated from `tradeRecType` for a given stored type token. -/
def tradeEntType (ty : String) : TradeEntryT :=
  ⟨"BTC-USDT", ⟨false, [5, 0, 0, 0, 0], 0⟩, ⟨false, [1], -1⟩,
    ⟨false, [5, 0, 0, 0], 0⟩, ty, "2024-01-01T10:00:00+00:00"⟩

/-- The entry validated from `tradeRecTs` for a given stored timestamp. -/
def tradeEntTs (ts : String) : TradeEntryT :=
  ⟨"BTC-USDT", ⟨false, [5, 0, 0, 0, 0], 0⟩, ⟨false, [1], -1⟩,
    ⟨false, [5, 0, 0, 0], 0⟩, "buy", ts⟩

theorem trade_validate_price (pv : Value) (dd : PyDecimal)
    (h : coerceDecimal pv = .ok dd) :
    TradeEntry.model_validate (tradeRecPrice pv) = .ok (tradeEntPrice dd) := by
  have hm : coerceStr (.vStr "BTC-USDT") = .ok "BTC-USDT" := rfl
  have ha : coerceDecimal (.vStr "0.1") = .ok ⟨false, [1], -1⟩ := rfl
  have ht : coerceDecimal (.vStr "5000") = .ok ⟨false, [5, 0, 0, 0], 0⟩ := rfl
  have hty : coerceTradeType (.vStr "buy") = .ok "buy" := rfl
  have hts : validate_timestamp (.vStr "2024-01-01T10:00:00+00:00") =
    "2024-01-01T10:00:00+00:00" := rfl
  simp [TradeEntry.model_validate, tradeRecPrice, reqField, lookup, h, hm, ha, ht,
    hty, hts, tradeEntPrice]

theorem trade_validate_ts (ts : Value) :
    TradeEntry.model_validate (tradeRecTs ts) = .ok (tradeEntTs (validate_timestamp ts)) :=
  rfl

/-- Whether a validation outcome is a success. -/
def vOk {ε α : Type} : Except ε α → Bool
  | .ok _ => true
  | .error _ => false

/-- Whether an error kind is a missing-required-field report. -/
def ErrKind.isMissing : ErrKind → Bool
  | .missing => true
  | _ => false

/- ### Claim evaluation points -/

/-- The spec's round-trip example candle, positional form. -/
def c1List : Value :=
  .vList [.vInt 1699000000000, .vStr "50000.5", .vStr "51000.0", .vStr "49500.0",
    .vStr "50500.0", .vStr "100.5"]

/-- The spec's round-trip example candle, keyed form. -/
def c1Dict : Value :=
  .vDict [("timestamp", .vInt 1699000000000), ("open", .vStr "50000.5"),
    ("high", .vStr "51000.0"), ("low", .vStr "49500.0"), ("close", .vStr "50500.0"),
    ("volume", .vStr "100.5")]

/-- The spec's invariant-violating candle (high = 90 < open = 100). -/
def c2List : Value :=
  .vList [.vInt 0, .vStr "100", .vStr "90", .vStr "50", .vStr "95", .vStr "1"]

/-- The entry the test-suite pipeline produces for `c2List`. -/
def c2Entry : OHCLEntryT :=
  ⟨0, ⟨false, [1, 0, 0], 0⟩, ⟨false, [9, 0], 0⟩, ⟨false, [5, 0], 0⟩,
    ⟨false, [9, 5], 0⟩, ⟨false, [1], 0⟩⟩

/-- The spec's 5-element positional candle. -/
def c3List : Value :=
  .vList [.vInt 1699000000000, .vStr "50000", .vStr "51000", .vStr "49500",
    .vStr "50500"]

/-- The entry the test-suite pipeline produces for `c3List`. -/
def c3Entry : OHCLEntryT :=
  ⟨1699000000000, ⟨false, [5, 0, 0, 0, 0], 0⟩, ⟨false, [5, 1, 0, 0, 0], 0⟩,
    ⟨false, [4, 9, 5, 0, 0], 0⟩, ⟨false, [5, 0, 5, 0, 0], 0⟩, ⟨false, [0], 0⟩⟩

/-- The test suite's negative-price candle (`test_negative_values_rejected`). -/
def c9List : Value :=
  .vList [.vInt 1699000000000, .vStr "-50000", .vStr "51000", .vStr "49500",
    .vStr "50500", .vStr "100"]

/-- The entry the test-suite pipeline produces for `c9List`. -/
def c9Entry : OHCLEntryT :=
  ⟨1699000000000, ⟨true, [5, 0, 0, 0, 0], 0⟩, ⟨false, [5, 1, 0, 0, 0], 0⟩,
    ⟨false, [4, 9, 5, 0, 0], 0⟩, ⟨false, [5, 0, 5, 0, 0], 0⟩, ⟨false, [1, 0, 0], 0⟩⟩

/-- A fully valid keyed candle record. -/
def c10CandleKvs : List (String × Value) :=
  [("timestamp", .vInt 1699000000000), ("open", .vStr "50000"),
    ("high", .vStr "51000"), ("low", .vStr "49500"), ("close", .vStr "50500"),
    ("volume", .vStr "100")]

/-- A fully valid keyed trade record. -/
def c10TradeKvs : List (String × Value) :=
  [("market", .vStr "BTC-USDT"), ("price", .vStr "50000"), ("amount", .vStr "0.1"),
    ("total", .vStr "5000"), ("type", .vStr "buy"),
    ("timestamp", .vStr "2024-01-01T10:00:00+00:00")]

/-- An unknown extra key. -/
def c10Extra : String × Value := ("exchange", .vStr "nobitex")

/-- A valid trade batch for the multi-symbol claim. -/
def c7TradeBatch : Value :=
  .vDict [("trades", .vList [tradeRecType (.vStr "buy")]), ("status", .vStr "ok")]

/-- The spec's multi-symbol example with one invalid symbol (candle side). -/
def c7BadCandleMap : Value :=
  .vDict [("BTCUSDT", .vDict [("data", .vList [c1List])]), ("ETHUSDT", .vInt 0)]

/-- A trade map with one invalid symbol. -/
def c7BadTradeMap : Value :=
  .vDict [("BTCUSDT", c7TradeBatch), ("ETHUSDT", .vInt 0)]

/-- A trade map with only valid symbols. -/
def c7GoodTradeMap : Value := .vDict [("BTCUSDT", c7TradeBatch)]

theorem finVal0 : ((0 : Fin 10) : ℕ) = 0 := rfl
theorem finVal1 : ((1 : Fin 10) : ℕ) = 1 := rfl
theorem finVal2 : ((2 : Fin 10) : ℕ) = 2 := rfl
theorem finVal3 : ((3 : Fin 10) : ℕ) = 3 := rfl
theorem finVal4 : ((4 : Fin 10) : ℕ) = 4 := rfl
theorem finVal5 : ((5 : Fin 10) : ℕ) = 5 := rfl
theorem finVal6 : ((6 : Fin 10) : ℕ) = 6 := rfl
theorem finVal7 : ((7 : Fin 10) : ℕ) = 7 := rfl
theorem finVal8 : ((8 : Fin 10) : ℕ) = 8 := rfl
theorem finVal9 : ((9 : Fin 10) : ℕ) = 9 := rfl

/- ### Claims -/

/-- Claim C1 (code bug): the claim says validating the 6-element positional
candle and the equivalent keyed record both succeed with identical entries.
On the production `OHCLEntry` BOTH raise an uncaught `AttributeError("high")`:
`parse_list` is not registered as a validator and the mis-declared
`validate_high_low` before-hook reads `.high` off the raw value.  The test
suite's own `OHLCEntry` exhibits the intended behavior: both shapes succeed
and agree. -/
theorem claim_C1 :
    OHCLEntry.model_validate c1List = .error (.attributeError "high") ∧
    OHCLEntry.model_validate c1Dict = .error (.attributeError "high") ∧
    OHLCEntry.model_validate c1List = OHLCEntry.model_validate c1Dict ∧
    vOk (OHLCEntry.model_validate c1List) = true :=
  ⟨rfl, rfl, rfl, rfl⟩

/-- Claim C2 (code bug): the claim says the candle `[0,"100","90","50","95","1"]`
(high = 90 < open = 100) fails with an invariant error and never silently
succeeds.  The production `OHCLEntry` instead raises `AttributeError("high")`
(the same crash it raises on every input, valid or not), and the test suite's
own `OHLCEntry` — the only working candle pipeline in the repository — accepts
the input silently, storing high 90 below open 100. -/
theorem claim_C2 :
    OHCLEntry.model_validate c2List = .error (.attributeError "high") ∧
    OHLCEntry.model_validate c2List = .ok c2Entry ∧
    c2Entry.high.val < c2Entry.«open».val :=
  ⟨rfl, rfl, by norm_num [c2Entry, PyDecimal.val, digitsNat, List.foldl, finVal0, finVal1, finVal5, finVal9]⟩

/-- Claim C3 (code bug): the claim says a 5-element positional candle validates
with volume equal to the exact decimal zero.  The production `OHCLEntry`
raises `AttributeError("high")` on it; the test suite's `OHLCEntry` shows the
intended behavior, volume = 0. -/
theorem claim_C3 :
    OHCLEntry.model_validate c3List = .error (.attributeError "high") ∧
    OHLCEntry.model_validate c3List = .ok c3Entry ∧
    c3Entry.volume.val = 0 :=
  ⟨rfl, rfl, by norm_num [c3Entry, PyDecimal.val, digitsNat, List.foldl, finVal0]⟩

/-- Claim C9 (code bug): the claim says some candle with a negative price
validates successfully (no non-negativity constraint).  No input whatsoever
validates on the production `OHCLEntry` — the negative-price candle of the
test suite's own `test_negative_values_rejected` raises
`AttributeError("high")` there — while the test suite's `OHLCEntry` accepts
it, storing open = -50000 < 0 as intended. -/
theorem claim_C9 :
    OHCLEntry.model_validate c9List = .error (.attributeError "high") ∧
    OHLCEntry.model_validate c9List = .ok c9Entry ∧
    c9Entry.«open».val < 0 :=
  ⟨rfl, rfl, by norm_num [c9Entry, PyDecimal.val, digitsNat, List.foldl, finVal0, finVal5]⟩

/-- Claim C10 (code bug): the claim says candle-entry and trade-entry
validation both ignore unknown keys and succeed as on the restricted record.
The trade side does exactly that (pydantic `extra='ignore'`), and so does the
test suite's candle class; but the production `OHCLEntry` raises
`AttributeError("high")` on every keyed record, extra keys or not, so its
candle-entry validation never succeeds at all. -/
theorem claim_C10 :
    OHCLEntry.model_validate (.vDict (c10CandleKvs ++ [c10Extra])) =
      .error (.attributeError "high") ∧
    OHLCEntry.model_validate (.vDict (c10CandleKvs ++ [c10Extra])) =
      OHLCEntry.model_validate (.vDict c10CandleKvs) ∧
    vOk (OHLCEntry.model_validate (.vDict c10CandleKvs)) = true ∧
    TradeEntry.model_validate (.vDict (c10TradeKvs ++ [c10Extra])) =
      TradeEntry.model_validate (.vDict c10TradeKvs) ∧
    vOk (TradeEntry.model_validate (.vDict c10TradeKvs)) = true :=
  ⟨rfl, rfl, rfl, rfl, rfl⟩

/-- Claim C7 (code bug): the claim says multi-symbol map validation fails iff
some symbol's collection fails, identifying the offending symbol.  The trade
adapter `all_trades_T` does exactly that — the invalid map fails naming
`ETHUSDT`, the valid map succeeds with its key preserved — but the candle
adapter is `all_ohlc_T = TypeAdapter(Any)`, which accepts ANY input unchanged,
including a map whose `ETHUSDT` entry is the plainly invalid `0`. -/
theorem claim_C7 :
    all_ohlc_T_validate c7BadCandleMap = .ok c7BadCandleMap ∧
    all_trades_T_validate c7BadTradeMap =
      .error [⟨[.key "ETHUSDT"], .modelType⟩] ∧
    all_trades_T_validate c7GoodTradeMap =
      .ok [("BTCUSDT", ⟨[tradeEntType "buy"], "ok"⟩)] :=
  ⟨rfl, rfl, rfl⟩

/-- Claim C8 counterexample: for the 3-element sequence `[1, 2, 3]` the shape
step does return the raw value unchanged, but the subsequent validation does
NOT report the required fields as missing: the model-fields check fails with a
single not-a-keyed-record (`model_type`) error containing no missing-field
report, and the production pipeline fails even earlier with
`AttributeError("high")`. -/
theorem claim_C8_counterexample :
    OHCLEntry.parse_list (.vList [.vInt 1, .vInt 2, .vInt 3]) =
      .vList [.vInt 1, .vInt 2, .vInt 3] ∧
    candleFields (.vList [.vInt 1, .vInt 2, .vInt 3]) =
      .error [⟨[], .modelType⟩] ∧
    (([⟨[], .modelType⟩] : List VErr).all fun e => ! e.kind.isMissing) = true ∧
    OHCLEntry.model_validate (.vList [.vInt 1, .vInt 2, .vInt 3]) =
      .error (.attributeError "high") :=
  ⟨rfl, rfl, rfl, rfl⟩

/-- Claim C8 (corrected): for every sequence whose length is neither 5 nor at
least 6, both `parse_list` variants return the raw value unchanged — there is
no separate error path for unsupported lengths — and the subsequent
model-fields validation of the raw sequence fails with a single
not-a-keyed-record (`model_type`) error, not by naming missing fields. -/
theorem claim_C8 (xs : List Value) (h5 : xs.length ≠ 5) (h6 : xs.length < 6) :
    OHCLEntry.parse_list (.vList xs) = .vList xs ∧
    OHLCEntry.parse_list (.vList xs) = .vList xs ∧
    candleFields (.vList xs) = .error [⟨[], .modelType⟩] := by
  rcases xs with _ | ⟨a, _ | ⟨b, _ | ⟨c, _ | ⟨d, _ | ⟨e, _ | ⟨f, t⟩⟩⟩⟩⟩⟩
  · exact ⟨rfl, rfl, rfl⟩
  · exact ⟨rfl, rfl, rfl⟩
  · exact ⟨rfl, rfl, rfl⟩
  · exact ⟨rfl, rfl, rfl⟩
  · exact ⟨rfl, rfl, rfl⟩
  · simp at h5
  · simp at h6
    omega

/-- Claim C8 witness: the corrected statement evaluated at the concrete
2-element sequence `[None, None]`. -/
theorem claim_C8_witness :
    OHCLEntry.parse_list (.vList [.vNone, .vNone]) = .vList [.vNone, .vNone] ∧
    OHLCEntry.parse_list (.vList [.vNone, .vNone]) = .vList [.vNone, .vNone] ∧
    candleFields (.vList [.vNone, .vNone]) = .error [⟨[], .modelType⟩] :=
  claim_C8 [.vNone, .vNone] (by decide) (by decide)

theorem trade_validate_type_ok (tv : Value) (ty : String)
    (h : coerceTradeType tv = .ok ty) :
    TradeEntry.model_validate (tradeRecType tv) = .ok (tradeEntType ty) := by
  have hm : coerceStr (.vStr "BTC-USDT") = .ok "BTC-USDT" := rfl
  have hp : coerceDecimal (.vStr "50000") = .ok ⟨false, [5, 0, 0, 0, 0], 0⟩ := rfl
  have ha : coerceDecimal (.vStr "0.1") = .ok ⟨false, [1], -1⟩ := rfl
  have ht : coerceDecimal (.vStr "5000") = .ok ⟨false, [5, 0, 0, 0], 0⟩ := rfl
  have hts : validate_timestamp (.vStr "2024-01-01T10:00:00+00:00") =
    "2024-01-01T10:00:00+00:00" := rfl
  simp [TradeEntry.model_validate, tradeRecType, reqField, lookup, h, hm, hp, ha,
    ht, hts, tradeEntType]

theorem trade_validate_type_err (tv : Value) (k : ErrKind)
    (h : coerceTradeType tv = .error k) :
    TradeEntry.model_validate (tradeRecType tv) = .error [⟨[.field "type"], k⟩] := by
  have hm : coerceStr (.vStr "BTC-USDT") = .ok "BTC-USDT" := rfl
  have hp : coerceDecimal (.vStr "50000") = .ok ⟨false, [5, 0, 0, 0, 0], 0⟩ := rfl
  have ha : coerceDecimal (.vStr "0.1") = .ok ⟨false, [1], -1⟩ := rfl
  have ht : coerceDecimal (.vStr "5000") = .ok ⟨false, [5, 0, 0, 0], 0⟩ := rfl
  have hts : validate_timestamp (.vStr "2024-01-01T10:00:00+00:00") =
    "2024-01-01T10:00:00+00:00" := rfl
  simp [TradeEntry.model_validate, tradeRecType, reqField, lookup, h, hm, hp, ha,
    ht, hts, errsOf]

/-- Claim C5 (confirmed): trade-entry validation of the `type` field succeeds
iff the value is exactly the string `"buy"` or exactly `"sell"`
(case-sensitive); every other value fails with a single literal error on the
`type` field carrying the offending value and the two accepted tokens. -/
theorem claim_C5 (v : Value) :
    (TradeEntry.model_validate (tradeRecType v) =
      if v.isStrEq "buy" then .ok (tradeEntType "buy")
      else if v.isStrEq "sell" then .ok (tradeEntType "sell")
      else .error [⟨[.field "type"], .literalError v ["buy", "sell"]⟩]) ∧
    (v.isStrEq "buy" = true ↔ v = .vStr "buy") ∧
    (v.isStrEq "sell" = true ↔ v = .vStr "sell") := by
  refine ⟨?_, ?_, ?_⟩
  · by_cases h1 : v.isStrEq "buy" = true
    · rw [if_pos h1,
        trade_validate_type_ok v "buy" (by rw [coerceTradeType, if_pos h1])]
    · by_cases h2 : v.isStrEq "sell" = true
      · rw [if_neg h1, if_pos h2, trade_validate_type_ok v "sell"
          (by rw [coerceTradeType, if_neg h1, if_pos h2])]
      · rw [if_neg h1, if_neg h2, trade_validate_type_err v _
          (by rw [coerceTradeType, if_neg h1, if_neg h2])]
  · cases v <;> simp [Value.isStrEq]
  · cases v <;> simp [Value.isStrEq]

/-- Claim C6 (confirmed): for every raw `timestamp` value the trade entry
validates successfully, storing the result of `validate_timestamp`: a
structured `datetime` is stored as its canonical ISO-8601 text (timezone
offset included when present), a string is stored verbatim — malformed or not,
no format check ever runs — and any other value is stored as its generic
`str()` conversion. -/
theorem claim_C6 :
    (∀ v : Value, TradeEntry.model_validate (tradeRecTs v) =
      .ok (tradeEntTs (validate_timestamp v))) ∧
    (∀ dt : PyDatetime, validate_timestamp (.vDatetime dt) = dt.isoformat) ∧
    (∀ s : String, validate_timestamp (.vStr s) = s) :=
  ⟨fun v => trade_validate_ts v, fun _ => rfl, fun _ => rfl⟩

/-- Claim C4 counterexample: the decimal string `"0.0000001"` for the trade
`price` field validates successfully and the stored value compares equal to
the exact decimal, but it re-serializes as Python's scientific form `"1E-7"`
(`str(Decimal('0.0000001'))`), not as the original literal — so re-serialization
to "exactly the same decimal literal" fails for this decimal string. -/
theorem claim_C4_counterexample :
    TradeEntry.model_validate (tradeRecPrice (.vStr "0.0000001")) =
      .ok (tradeEntPrice ⟨false, [1], -7⟩) ∧
    (⟨false, [1], -7⟩ : PyDecimal).val = 1 / 10 ^ 7 ∧
    pyDecimalStr ⟨false, [1], -7⟩ = "1E-7" ∧
    "1E-7" ≠ "0.0000001" :=
  ⟨rfl, by norm_num [PyDecimal.val, digitsNat, List.foldl, finVal1, zpow_neg], rfl,
    by decide⟩

/-- Claim C4 (corrected): for every decimal literal in canonical plain form —
nonempty integer part without a superfluous leading zero, no `+` sign and no
exponent notation, and (when the integer part is `0`) at most five leading
fractional zeros before a significant digit, or at most six fractional digits
when all are zero — a validated trade entry stores a `Decimal` that compares
equal to the literal's exact rational value and re-serializes to exactly the
original literal, with no rounding and no binary floating point involved. -/
theorem claim_C4 (L : PlainLit) (h : L.Canonical) :
    ∃ d : PyDecimal,
      TradeEntry.model_validate (tradeRecPrice (.vStr L.render)) =
        .ok (tradeEntPrice d) ∧
      pyDecimalStr d = L.render ∧
      d.val = L.val := by
  refine ⟨mkDec L.neg L.ip L.fp, ?_, pyDecimalStr_mkDec L h, val_mkDec_lit L⟩
  exact trade_validate_price _ _ (coerceDecimal_render L h.1)

/-- Claim C4 witness: the corrected statement evaluated at the spec's example
literal `"50000.123456789"`. -/
theorem claim_C4_witness :
    (PlainLit.render ⟨false, [5, 0, 0, 0, 0], [1, 2, 3, 4, 5, 6, 7, 8, 9]⟩ =
      "50000.123456789") ∧
    ∃ d : PyDecimal,
      TradeEntry.model_validate (tradeRecPrice (.vStr (PlainLit.render
        ⟨false, [5, 0, 0, 0, 0], [1, 2, 3, 4, 5, 6, 7, 8, 9]⟩))) =
        .ok (tradeEntPrice d) ∧
      pyDecimalStr d = PlainLit.render
        ⟨false, [5, 0, 0, 0, 0], [1, 2, 3, 4, 5, 6, 7, 8, 9]⟩ ∧
      d.val = PlainLit.val ⟨false, [5, 0, 0, 0, 0], [1, 2, 3, 4, 5, 6, 7, 8, 9]⟩ :=
  ⟨rfl, claim_C4 ⟨false, [5, 0, 0, 0, 0], [1, 2, 3, 4, 5, 6, 7, 8, 9]⟩ (by decide)⟩
